import Mathlib

/-!
Verification of the NSW car-park data collector (`parking_collector.py`).

The development shallowly embeds the polling-and-retry subsystem:
the fetcher with its tiered error classification and exponential backoff,
the persister writing into a uniqueness-constrained store, the poll-cycle
orchestrator, and the supervisor loop with its consecutive-failure
circuit breaker.  HTTP traffic is modelled as an oracle assigning an
outcome to every request; the SQLite store is a list of rows with the
integrity checks of the schema made explicit.
-/

namespace MetroParking

/-! ## Configuration constants (module header of `parking_collector.py`) -/

def FACILITIES : List Int := [29, 30, 31, 32]

def POLL_INTERVAL_SECONDS : Nat := 600

def MAX_RETRIES : Nat := 5

/-- `RATE_LIMIT_DELAY = 0.5` seconds, modelled as an exact rational. -/
def RATE_LIMIT_DELAY : ℚ := 1 / 2

def MAX_CONSECUTIVE_FAILURES : Nat := 3

/-- Error codes that should trigger retry with backoff. -/
def RETRYABLE_STATUS_CODES : List Nat := [500, 503]

/-- Error codes that should fail immediately. -/
def FATAL_STATUS_CODES : List Nat := [401, 403, 404]

/-! ## Payloads

A successful response body is a JSON object.  The fields the collector
extracts are modelled explicitly; `otherKeys` records whether the object
carries any further keys (this matters because the orchestrator tests the
dictionary for Python truthiness: an empty dict is falsy). -/

structure Payload where
  facility_id : Option Int
  facility_name : Option String
  messageDate : Option String
  spots : Option Int
  occupancy_total : Option Int
  otherKeys : Bool
deriving DecidableEq

/-- Python truthiness of the payload dictionary: true iff the dict is
nonempty, i.e. at least one key is present. -/
def Payload.nonempty (p : Payload) : Bool :=
  p.facility_id.isSome || p.facility_name.isSome || p.messageDate.isSome ||
    p.spots.isSome || p.occupancy_total.isSome || p.otherKeys

/-- The body accompanying an HTTP response: malformed (non-JSON), a JSON
object containing the `ErrorDetails` key, or a JSON object without it. -/
inductive Body where
  | malformed
  | errorDetails
  | payload (p : Payload)
deriving DecidableEq

/-- Outcome of one HTTP request issued by `requests.get`. -/
inductive Outcome where
  | response (status : Nat) (body : Body)
  | timeout
  | requestException
deriving DecidableEq

/-- Observable result of one call tree of `fetch_parking_data`:
the returned data, the backoff sleeps performed (in seconds, in order),
and the number of HTTP requests issued. -/
structure FetchResult where
  data : Option Payload
  sleeps : List Nat
  requests : Nat
deriving DecidableEq

/-! ## Fetcher (`fetch_parking_data`)

`outcomes i` is the outcome of the request issued at retry index `i`.
The recursion mirrors the source: it recurses on `retry_count + 1` and
only while `retry_count < MAX_RETRIES`. -/

def fetch_go (facility_id : Int) (outcomes : Nat → Outcome)
    (retry_count : Nat) : FetchResult :=
  match outcomes retry_count with
  | .response status body =>
    if status = 200 then
      match body with
      | .malformed => ⟨none, [], 1⟩        -- json.JSONDecodeError: return None
      | .errorDetails => ⟨none, [], 1⟩     -- 'ErrorDetails' in data: return None
      | .payload p => ⟨some p, [], 1⟩
    else if status ∈ FATAL_STATUS_CODES then
      ⟨none, [], 1⟩
    else if status ∈ RETRYABLE_STATUS_CODES ∨ status = 403 then
      if h : retry_count < MAX_RETRIES then
        let wait_time := 2 ^ retry_count
        let r := fetch_go facility_id outcomes (retry_count + 1)
        ⟨r.data, wait_time :: r.sleeps, r.requests + 1⟩
      else
        ⟨none, [], 1⟩
    else
      ⟨none, [], 1⟩
  | .timeout =>
    if h : retry_count < MAX_RETRIES then
      let wait_time := 2 ^ retry_count
      let r := fetch_go facility_id outcomes (retry_count + 1)
      ⟨r.data, wait_time :: r.sleeps, r.requests + 1⟩
    else
      ⟨none, [], 1⟩
  | .requestException => ⟨none, [], 1⟩
termination_by MAX_RETRIES - retry_count
decreasing_by
  all_goals omega

/-- `fetch_parking_data`, including the pre-flight credential check:
with no API key the function returns `None` without issuing a request. -/
def fetch_parking_data (apiKeyPresent : Bool) (facility_id : Int)
    (outcomes : Nat → Outcome) (retry_count : Nat) : FetchResult :=
  if apiKeyPresent then fetch_go facility_id outcomes retry_count
  else ⟨none, [], 0⟩

/-- The same fetch logic with the `status == 403` alternative of the
retryable test removed.  Comparing with `fetch_go` states that this
alternative is unreachable dead code in the source. -/
def fetch_go_fatal403only (facility_id : Int) (outcomes : Nat → Outcome)
    (retry_count : Nat) : FetchResult :=
  match outcomes retry_count with
  | .response status body =>
    if status = 200 then
      match body with
      | .malformed => ⟨none, [], 1⟩
      | .errorDetails => ⟨none, [], 1⟩
      | .payload p => ⟨some p, [], 1⟩
    else if status ∈ FATAL_STATUS_CODES then
      ⟨none, [], 1⟩
    else if status ∈ RETRYABLE_STATUS_CODES then
      if h : retry_count < MAX_RETRIES then
        let wait_time := 2 ^ retry_count
        let r := fetch_go_fatal403only facility_id outcomes (retry_count + 1)
        ⟨r.data, wait_time :: r.sleeps, r.requests + 1⟩
      else
        ⟨none, [], 1⟩
    else
      ⟨none, [], 1⟩
  | .timeout =>
    if h : retry_count < MAX_RETRIES then
      let wait_time := 2 ^ retry_count
      let r := fetch_go_fatal403only facility_id outcomes (retry_count + 1)
      ⟨r.data, wait_time :: r.sleeps, r.requests + 1⟩
    else
      ⟨none, [], 1⟩
  | .requestException => ⟨none, [], 1⟩
termination_by MAX_RETRIES - retry_count
decreasing_by
  all_goals omega

/-! ## Persister (`save_parking_data`) and the store

The store is the `parking_data` table, modelled as a list of rows in
insertion order.  The INSERT is modelled with the two integrity checks
the schema imposes on it: `facility_id` is NOT NULL (every other bound
column is always non-NULL or nullable), and `(facility_id, message_date)`
is UNIQUE. -/

structure Row where
  facility_id : Option Int
  facility_name : String
  message_date : String
  collected_at : String
  total_spots : Option Int
  total_occupancy : Option Int
  raw_response : Payload
deriving DecidableEq

/-- Field extraction performed by `save_parking_data` before the INSERT:
`data.get('facility_id')`, `data.get('facility_name', '')`,
`data.get('MessageDate', '')`, the wall-clock collection timestamp,
`data.get('spots')`, `data.get('occupancy', {}).get('total')`, and the
full payload as `raw_response`. -/
def rowOf (data : Payload) (collected_at : String) : Row :=
  { facility_id := data.facility_id
    facility_name := data.facility_name.getD ("")
    message_date := data.messageDate.getD ("")
    collected_at := collected_at
    total_spots := data.spots
    total_occupancy := data.occupancy_total
    raw_response := data }

/-- The two integrity errors this INSERT can raise: a NOT NULL violation
(the bound `facility_id` is NULL) or a violation of
`UNIQUE(facility_id, message_date)`.  Both are `sqlite3.IntegrityError`s
in the source's terms. -/
inductive SqliteError where
  | notNullViolation
  | uniqueViolation
deriving DecidableEq

/-- The INSERT against the `parking_data` schema: rejects a NULL
`facility_id` and a duplicate `(facility_id, message_date)` pair,
otherwise appends the row. -/
def dbInsert (db : List Row) (r : Row) : Except SqliteError (List Row) :=
  if r.facility_id = none then .error .notNullViolation
  else if db.any (fun x => x.facility_id == r.facility_id && x.message_date == r.message_date) then
    .error .uniqueViolation
  else .ok (db ++ [r])

/-- `save_parking_data`: extracts the fields, executes the INSERT, and
catches `sqlite3.IntegrityError` — logging and leaving the store
unchanged — so the call always returns normally with the new store. -/
def save_parking_data (db : List Row) (data : Payload) (collected_at : String) : List Row :=
  match dbInsert db (rowOf data collected_at) with
  | .ok db' => db'
  | .error _ => db

/-- Number of rows of the store carrying a given
(facility id, message timestamp) pair. -/
def pairCount (db : List Row) (fid : Option Int) (md : String) : Nat :=
  (db.filter (fun x => x.facility_id == fid && x.message_date == md)).length

/-- A payload is saturated in a store when saving it again is a no-op:
its `facility_id` is missing, or its pair is already present. -/
def Saturated (db : List Row) (p : Payload) : Prop :=
  p.facility_id = none
  ∨ ∃ r ∈ db, r.facility_id = p.facility_id ∧ r.message_date = p.messageDate.getD ("")

/-- A sample well-formed payload, used for concrete instances. -/
def samplePayload : Payload :=
  { facility_id := some 29
    facility_name := some ("Kellyville")
    messageDate := some ("2025-10-01T10:00:00")
    spots := some 100
    occupancy_total := some 40
    otherKeys := false }

/-- The payload of an HTTP-200 response whose JSON body is the empty
object `{}`: a successful fetch, yet falsy for Python. -/
def emptyDictPayload : Payload :=
  { facility_id := none
    facility_name := none
    messageDate := none
    spots := none
    occupancy_total := none
    otherKeys := false }

/-- A payload lacking `facility_id`; its INSERT violates the NOT NULL
constraint on `facility_id`, not the uniqueness constraint. -/
def noFidPayload : Payload :=
  { facility_id := none
    facility_name := some ("Bella Vista")
    messageDate := some ("2025-10-01T10:00:00")
    spots := some 50
    occupancy_total := some 10
    otherKeys := false }

/-! ## Poll cycle orchestrator (`poll_all_facilities`)

`world i` is the outcome stream seen by the fetch call issued for the
facility at position `i` of the configured list; `times i` is the
wall-clock timestamp `datetime.now()` would yield for that position's
save.  The orchestrator emits an event trace recording, in order, each
fetch call, each persister invocation, and each pacing sleep. -/

inductive Event where
  | fetchCall (fid : Int)
  | persistCall (p : Payload)
  | paceSleep (d : ℚ)
deriving DecidableEq

def poll_go (apiKey : Bool) (world : Nat → Nat → Outcome) (times : Nat → String)
    (lastId : Option Int) :
    List Int → Nat → Nat → List Row → Nat × List Row × List Event
  | [], _, success_count, db => (success_count, db, [])
  | fid :: rest, i, success_count, db =>
    let data := (fetch_parking_data apiKey fid (world i) 0).data
    let step :=
      match data with
      | some p =>
        if p.nonempty then
          (success_count + 1, save_parking_data db p (times i),
            [Event.fetchCall fid, Event.persistCall p])
        else (success_count, db, [Event.fetchCall fid])
      | none => (success_count, db, [Event.fetchCall fid])
    let evs :=
      if some fid ≠ lastId then step.2.2 ++ [Event.paceSleep RATE_LIMIT_DELAY]
      else step.2.2
    let r := poll_go apiKey world times lastId rest (i + 1) step.1 step.2.1
    (r.1, r.2.1, evs ++ r.2.2)

/-- `poll_all_facilities`: runs the loop over the configured list and
returns `success_count > 0` together with the final store and the event
trace.  `FACILITIES[-1]` is modelled as `facilities.getLast?`. -/
def poll_all_facilities (apiKey : Bool) (world : Nat → Nat → Outcome)
    (times : Nat → String) (facilities : List Int) (db : List Row) :
    Bool × List Row × List Event :=
  let r := poll_go apiKey world times facilities.getLast? facilities 0 0 db
  (decide (0 < r.1), r.2.1, r.2.2)

def Event.isPersist : Event → Bool
  | .persistCall _ => true
  | _ => false

def Event.isPace : Event → Bool
  | .paceSleep _ => true
  | _ => false

def Event.isFetchOrPace : Event → Bool
  | .fetchCall _ => true
  | .paceSleep _ => true
  | _ => false

def Event.fetchId : Event → Option Int
  | .fetchCall f => some f
  | _ => none

/-- Number of persister invocations recorded in a trace. -/
def persistCount (evs : List Event) : Nat := (evs.filter Event.isPersist).length

/-- Number of pacing sleeps recorded in a trace. -/
def paceCount (evs : List Event) : Nat := (evs.filter Event.isPace).length

/-- The facility ids of the fetch calls of a trace, in trace order. -/
def fetchOrder (evs : List Event) : List Int := evs.filterMap Event.fetchId

/-- The trace restricted to fetch calls and pacing sleeps. -/
def pacedView (evs : List Event) : List Event := evs.filter Event.isFetchOrPace

/-- Python truthiness of a fetch result: `None` and the empty dict are
falsy. -/
def truthyData : Option Payload → Bool
  | some p => p.nonempty
  | none => false

/-- Whether the fetch issued at call position `i` for facility `fid`
yields data the orchestrator treats as present. -/
def fetchTruthy (apiKey : Bool) (world : Nat → Nat → Outcome) (i : Nat) (fid : Int) : Bool :=
  truthyData (fetch_parking_data apiKey fid (world i) 0).data

/-- Number of facilities of the list (fetched starting at position `i`)
whose fetch yields truthy data. -/
def countTruthyFetches (apiKey : Bool) (world : Nat → Nat → Outcome) :
    List Int → Nat → Nat
  | [], _ => 0
  | fid :: rest, i =>
    (if fetchTruthy apiKey world i fid then 1 else 0)
      + countTruthyFetches apiKey world rest (i + 1)

/-- The fetch/pace shape the loop actually produces: a pacing sleep
follows every facility whose id differs from `lastId`. -/
def pacedInterleave (lastId : Option Int) : List Int → List Event
  | [] => []
  | f :: rest =>
    (if some f ≠ lastId then [Event.fetchCall f, Event.paceSleep RATE_LIMIT_DELAY]
     else [Event.fetchCall f]) ++ pacedInterleave lastId rest

/-- Modelled from the spec: "Between requests — except after the final
facility — impose a fixed pacing delay"; exactly one pacing sleep after
every facility except the last, in configuration order. -/
def specPacedOrder : List Int → List Event
  | [] => []
  | [f] => [Event.fetchCall f]
  | f :: rest => Event.fetchCall f :: Event.paceSleep RATE_LIMIT_DELAY :: specPacedOrder rest

/-! ## Supervisor loop (`main`)

One loop iteration runs `poll_all_facilities` inside a `try`, updates the
consecutive-failure counter, and sleeps for the poll interval.  The
cycle may complete with success (`True`), failure (`False`), or an
unhandled exception caught by the `except Exception` arm; a
`KeyboardInterrupt` may instead arrive while the cycle runs or during the
inter-cycle sleep.  The inter-cycle sleep of the success/failure path
sits inside the `try` block, so an interrupt there is caught and converts
to `sys.exit(0)`; the sleep of the exception path sits inside the
`except Exception` handler, where a `KeyboardInterrupt` is not caught by
the sibling `except KeyboardInterrupt` arm and escapes `main` uncaught
(CPython then terminates the process by SIGINT, shell status 130). -/

inductive CycleRes where
  | success
  | failure
  | exn
deriving DecidableEq

inductive ExitStatus where
  | halted
  | stopped
  | killedByInterrupt
deriving DecidableEq

/-- Process exit status: `sys.exit(0)` for a caught interrupt,
`sys.exit(1)` on the threshold breach, 130 for an interrupt that escapes
`main`. -/
def exitCode : ExitStatus → Nat
  | .stopped => 0
  | .halted => 1
  | .killedByInterrupt => 130

/-- Counter update for a completed cycle: reset on success; increment on
failure or unhandled exception, exiting with status 1 when the counter
reaches `MAX_CONSECUTIVE_FAILURES`. -/
def applyOutcome (n : Nat) : CycleRes → Sum ExitStatus Nat
  | .success => .inr 0
  | .failure =>
    if MAX_CONSECUTIVE_FAILURES ≤ n + 1 then .inl .halted else .inr (n + 1)
  | .exn =>
    if MAX_CONSECUTIVE_FAILURES ≤ n + 1 then .inl .halted else .inr (n + 1)

/-- What happens during one iteration of the `while True` loop. -/
inductive IterInput where
  | completes (o : CycleRes)
  | interruptInCycle
  | interruptInSleep (o : CycleRes)
deriving DecidableEq

/-- One iteration of the supervisor loop: either exit with a status or
continue with the updated counter.  For `interruptInSleep o`, the cycle
has already completed with outcome `o` and its counter update (and a
possible threshold exit) happened before the sleep began; if the loop
does sleep, the interrupt is caught only when the sleep sits inside the
`try` block — i.e. after a success or failure cycle, not after an
exception cycle. -/
def stepIter (n : Nat) : IterInput → Sum ExitStatus Nat
  | .completes o => applyOutcome n o
  | .interruptInCycle => .inl .stopped
  | .interruptInSleep o =>
    match applyOutcome n o with
    | .inl e => .inl e
    | .inr _ =>
      match o with
      | .exn => .inl .killedByInterrupt
      | _ => .inl .stopped

/-- Run the supervisor loop over a finite prefix of iteration inputs,
starting from counter `n`: returns either the exit status or the counter
left when the prefix is exhausted, together with the number of loop
iterations (cycles attempted or interrupted) consumed. -/
def runSup : Nat → List IterInput → Sum ExitStatus Nat × Nat
  | n, [] => (.inr n, 0)
  | n, it :: rest =>
    match stepIter n it with
    | .inl e => (.inl e, 1)
    | .inr n' =>
      let r := runSup n' rest
      (r.1, r.2 + 1)

end MetroParking

/-! ## Theorems -/

namespace MetroParking

/-- Helper: the `status == 403` alternative of the retryable test never
fires, because the fatal-status test precedes it and `403` is fatal. -/
theorem fetch_go_eq_fatal403only (fid : Int) (outcomes : Nat → Outcome) (rc : Nat) :
    fetch_go fid outcomes rc = fetch_go_fatal403only fid outcomes rc := by
  induction rc using fetch_go.induct fid outcomes with
  | case1 x h => rw [fetch_go.eq_def, fetch_go_fatal403only.eq_def]; simp [h]
  | case2 x h => rw [fetch_go.eq_def, fetch_go_fatal403only.eq_def]; simp [h]
  | case3 x p h => rw [fetch_go.eq_def, fetch_go_fatal403only.eq_def]; simp [h]
  | case4 x status body h h2 h3 =>
    rw [fetch_go.eq_def, fetch_go_fatal403only.eq_def]; simp [h, h2, h3]
  | case5 x status body h h2 h3 h4 h5 ih =>
    have hr : status ∈ RETRYABLE_STATUS_CODES := by
      rcases h4 with h4 | rfl
      · exact h4
      · exact absurd (by decide : (403 : Nat) ∈ FATAL_STATUS_CODES) h3
    rw [fetch_go.eq_def, fetch_go_fatal403only.eq_def]
    simp [h, h2, h3, hr, h5, ih]
  | case6 x status body h h2 h3 h4 h5 =>
    have hr : status ∈ RETRYABLE_STATUS_CODES := by
      rcases h4 with h4 | rfl
      · exact h4
      · exact absurd (by decide : (403 : Nat) ∈ FATAL_STATUS_CODES) h3
    rw [fetch_go.eq_def, fetch_go_fatal403only.eq_def]
    simp [h, h2, h3, hr, h5]
  | case7 x status body h h2 h3 h4 =>
    have hr : status ∉ RETRYABLE_STATUS_CODES := fun hc => h4 (Or.inl hc)
    have h403 : status ≠ 403 := fun hc => h4 (Or.inr hc)
    rw [fetch_go.eq_def, fetch_go_fatal403only.eq_def]
    simp [h, h2, h3, h4, hr, h403]
  | case8 x h h5 ih =>
    rw [fetch_go.eq_def, fetch_go_fatal403only.eq_def]; simp [h, h5, ih]
  | case9 x h h5 =>
    rw [fetch_go.eq_def, fetch_go_fatal403only.eq_def]; simp [h, h5]
  | case10 x h => rw [fetch_go.eq_def, fetch_go_fatal403only.eq_def]; simp [h]

/-- Helper: each fetch call tree issues one request more than it sleeps,
and its request count is bounded by the remaining retry budget. -/
theorem fetch_go_requests_eq (fid : Int) (outcomes : Nat → Outcome) (rc : Nat) :
    (fetch_go fid outcomes rc).requests = (fetch_go fid outcomes rc).sleeps.length + 1
    ∧ (fetch_go fid outcomes rc).requests ≤ MAX_RETRIES - rc + 1 := by
  induction rc using fetch_go.induct fid outcomes with
  | case1 x h => rw [fetch_go.eq_def]; simp [h]
  | case2 x h => rw [fetch_go.eq_def]; simp [h]
  | case3 x p h => rw [fetch_go.eq_def]; simp [h]
  | case4 x status body h h2 h3 => rw [fetch_go.eq_def]; simp [h, h2, h3]
  | case5 x status body h h2 h3 h4 h5 ih =>
    rw [fetch_go.eq_def]
    simp only [h, h2, h3, h4, h5]
    simp [h2, h3, h4, h5]
    omega
  | case6 x status body h h2 h3 h4 h5 => rw [fetch_go.eq_def]; simp [h, h2, h3, h4, h5]
  | case7 x status body h h2 h3 h4 => rw [fetch_go.eq_def]; simp [h, h2, h3, h4]
  | case8 x h h5 ih =>
    rw [fetch_go.eq_def]
    simp [h, h5]
    omega
  | case9 x h h5 => rw [fetch_go.eq_def]; simp [h, h5]
  | case10 x h => rw [fetch_go.eq_def]; simp [h]

/-- **C1**: for every facility id, a fetch that receives HTTP 503 (or 500)
on every attempt, starting at retry index 0 with `MAX_RETRIES = 5`,
performs exactly the five backoff sleeps 1, 2, 4, 8, 16 seconds (duration
`2 ^ attempt`, never jittered or capped), issues 6 requests, and returns
no-data after retry exhaustion. -/
theorem C1_backoff_schedule_on_repeated_5xx :
    ∀ (fid : Int) (bodies bodies' : Nat → Body),
      fetch_parking_data true fid (fun i => .response 503 (bodies i)) 0
        = ⟨none, [1, 2, 4, 8, 16], 6⟩
      ∧ fetch_parking_data true fid (fun i => .response 500 (bodies' i)) 0
        = ⟨none, [1, 2, 4, 8, 16], 6⟩ := by
  intro fid bodies bodies'
  constructor <;>
    simp [fetch_parking_data, fetch_go, FATAL_STATUS_CODES, RETRYABLE_STATUS_CODES, MAX_RETRIES]

/-- **C3**: a fetch receiving HTTP 403 always takes the fatal branch — the
fatal-status test precedes the retryable test — so it returns no-data
with zero sleeps after a single request, at every retry index;
consequently the `status == 403` alternative of the retryable test is
unreachable: `fetch_go` coincides with the variant from which that
alternative is removed. -/
theorem C3_403_fatal_and_retry_branch_dead :
    (∀ (fid : Int) (outcomes : Nat → Outcome) (rc : Nat) (body : Body),
      outcomes rc = .response 403 body →
      fetch_go fid outcomes rc = ⟨none, [], 1⟩)
    ∧ (∀ (fid : Int) (outcomes : Nat → Outcome) (rc : Nat),
      fetch_go fid outcomes rc = fetch_go_fatal403only fid outcomes rc) := by
  constructor
  · intro fid outcomes rc body h
    rw [fetch_go.eq_def]
    simp [h, FATAL_STATUS_CODES]
  · exact fetch_go_eq_fatal403only

/-- Witness for **C3** at a concrete input. -/
theorem C3_403_fatal_and_retry_branch_dead_witness :
    fetch_go 29 (fun _ => .response 403 .errorDetails) 2 = ⟨none, [], 1⟩ :=
  C3_403_fatal_and_retry_branch_dead.1 29 (fun _ => .response 403 .errorDetails) 2 .errorDetails rfl

/-- **C8**: for every facility id and attempt count, a fetch receiving
HTTP 200 whose JSON body contains `ErrorDetails` returns no-data
immediately: zero sleeps, zero retries, one request. -/
theorem C8_errordetails_immediate_nodata :
    ∀ (fid : Int) (outcomes : Nat → Outcome) (rc : Nat),
      outcomes rc = .response 200 .errorDetails →
      fetch_go fid outcomes rc = ⟨none, [], 1⟩ := by
  intro fid outcomes rc h
  rw [fetch_go.eq_def]
  simp [h]

/-- Witness for **C8** at a concrete input. -/
theorem C8_errordetails_immediate_nodata_witness :
    fetch_go 31 (fun _ => .response 200 .errorDetails) 4 = ⟨none, [], 1⟩ :=
  C8_errordetails_immediate_nodata 31 (fun _ => .response 200 .errorDetails) 4 rfl

/-- **C10**: `fetch_go` is a total function; every call tree satisfies
`requests = sleeps + 1`, its request count is bounded by the remaining
retry budget `MAX_RETRIES - retry_count + 1`, and a call tree starting at
retry index 0 issues at most `MAX_RETRIES + 1 = 6` requests and performs
at most 5 backoff sleeps — for every facility id and every outcome stream
(statuses, timeouts, transport errors, malformed bodies). -/
theorem C10_fetch_terminates_with_bounded_requests :
    (∀ (fid : Int) (outcomes : Nat → Outcome) (rc : Nat),
      (fetch_go fid outcomes rc).requests = (fetch_go fid outcomes rc).sleeps.length + 1
      ∧ (fetch_go fid outcomes rc).requests ≤ MAX_RETRIES - rc + 1)
    ∧ (∀ (fid : Int) (outcomes : Nat → Outcome),
      (fetch_go fid outcomes 0).requests ≤ 6
      ∧ (fetch_go fid outcomes 0).sleeps.length ≤ 5) := by
  refine ⟨fetch_go_requests_eq, fun fid outcomes => ?_⟩
  have h := fetch_go_requests_eq fid outcomes 0
  simp [MAX_RETRIES] at h
  omega

end MetroParking

namespace MetroParking

/-- Helper: a save only ever appends to the store. -/
theorem save_extends (db : List Row) (p : Payload) (t : String) :
    ∃ tail, save_parking_data db p t = db ++ tail := by
  unfold save_parking_data dbInsert
  split_ifs with h1 h2
  · exact ⟨[], by simp⟩
  · exact ⟨[], by simp⟩
  · exact ⟨[rowOf p t], rfl⟩

theorem saturated_mono {db : List Row} {p : Payload} (tail : List Row)
    (h : Saturated db p) : Saturated (db ++ tail) p := by
  rcases h with h | ⟨r, hr, h1, h2⟩
  · exact Or.inl h
  · exact Or.inr ⟨r, List.mem_append_left _ hr, h1, h2⟩

theorem saturated_after_save (db : List Row) (p : Payload) (t : String) :
    Saturated (save_parking_data db p t) p := by
  unfold save_parking_data dbInsert
  split_ifs with h1 h2
  · exact Or.inl (by simpa [rowOf] using h1)
  · rcases List.any_eq_true.mp h2 with ⟨r, hr, hcond⟩
    rw [Bool.and_eq_true, beq_iff_eq, beq_iff_eq] at hcond
    exact Or.inr ⟨r, hr, by simpa [rowOf] using hcond.1, by simpa [rowOf] using hcond.2⟩
  · exact Or.inr ⟨rowOf p t, List.mem_append_right _ (List.mem_singleton.mpr rfl),
      by simp [rowOf], by simp [rowOf]⟩

theorem save_of_saturated {db : List Row} {p : Payload} (t : String)
    (h : Saturated db p) : save_parking_data db p t = db := by
  unfold save_parking_data dbInsert
  rcases h with h | ⟨r, hr, h1, h2⟩
  · simp [rowOf, h]
  · have hany : db.any
        (fun x => x.facility_id == (rowOf p t).facility_id
          && x.message_date == (rowOf p t).message_date) = true := by
      refine List.any_eq_true.mpr ⟨r, hr, ?_⟩
      rw [Bool.and_eq_true, beq_iff_eq, beq_iff_eq]
      exact ⟨by simpa [rowOf] using h1, by simpa [rowOf] using h2⟩
    split_ifs with hn
    · rfl
    · rfl

theorem pairCount_append (a b : List Row) (fid : Option Int) (md : String) :
    pairCount (a ++ b) fid md = pairCount a fid md + pairCount b fid md := by
  simp [pairCount, List.filter_append]

theorem any_eq_false_of_pairCount_zero {db : List Row} {fid : Option Int} {md : String}
    (h : pairCount db fid md = 0) :
    db.any (fun x => x.facility_id == fid && x.message_date == md) = false := by
  rw [List.any_eq_false]
  intro x hx hcond
  have : x ∈ db.filter (fun x => x.facility_id == fid && x.message_date == md) :=
    List.mem_filter.mpr ⟨hx, hcond⟩
  rw [pairCount, List.length_eq_zero] at h
  simp [h] at this

theorem save_twice_unique_pair :
    ∀ (db : List Row) (data : Payload) (t1 t2 : String),
      data.facility_id ≠ none →
      pairCount db data.facility_id (data.messageDate.getD ("")) = 0 →
      pairCount (save_parking_data (save_parking_data db data t1) data t2)
          data.facility_id (data.messageDate.getD ("")) = 1
      ∧ save_parking_data (save_parking_data db data t1) data t2
          = save_parking_data db data t1
      ∧ dbInsert (save_parking_data db data t1) (rowOf data t2)
          = .error .uniqueViolation := by
  intro db data t1 t2 hfid hz
  have hz' : pairCount db (rowOf data t1).facility_id (rowOf data t1).message_date = 0 := by
    simpa [rowOf] using hz
  have hany := any_eq_false_of_pairCount_zero hz'
  have h1 : save_parking_data db data t1 = db ++ [rowOf data t1] := by
    unfold save_parking_data dbInsert
    rw [if_neg (by simpa [rowOf] using hfid), if_neg (by simp [hany])]
  have hrow1 : pairCount [rowOf data t1] data.facility_id (data.messageDate.getD ("")) = 1 := by
    simp [pairCount, rowOf]
  have hmem : Saturated (save_parking_data db data t1) data := saturated_after_save db data t1
  have h2 : save_parking_data (save_parking_data db data t1) data t2
      = save_parking_data db data t1 := save_of_saturated t2 hmem
  have hins : dbInsert (save_parking_data db data t1) (rowOf data t2)
      = .error .uniqueViolation := by
    have hany2 : (save_parking_data db data t1).any
        (fun x => x.facility_id == (rowOf data t2).facility_id
          && x.message_date == (rowOf data t2).message_date) = true := by
      refine List.any_eq_true.mpr ⟨rowOf data t1, ?_, ?_⟩
      · rw [h1]; exact List.mem_append_right _ (List.mem_singleton.mpr rfl)
      · rw [Bool.and_eq_true, beq_iff_eq, beq_iff_eq]
        exact ⟨by simp [rowOf], by simp [rowOf]⟩
    unfold dbInsert
    rw [if_neg (by simpa [rowOf] using hfid), if_pos hany2]
  refine ⟨?_, h2, hins⟩
  rw [h2, h1, pairCount_append, hz, hrow1]

theorem persistCount_append (a b : List Event) :
    persistCount (a ++ b) = persistCount a + persistCount b := by
  simp [persistCount, List.filter_append]

theorem fetchOrder_append (a b : List Event) :
    fetchOrder (a ++ b) = fetchOrder a ++ fetchOrder b := by
  simp [fetchOrder]

theorem pacedView_append (a b : List Event) :
    pacedView (a ++ b) = pacedView a ++ pacedView b := by
  simp [pacedView, List.filter_append]

theorem poll_go_spec (apiKey : Bool) (world : Nat → Nat → Outcome) (times : Nat → String)
    (lastId : Option Int) :
    ∀ (facs : List Int) (i c : Nat) (db : List Row),
      (poll_go apiKey world times lastId facs i c db).1
        = c + countTruthyFetches apiKey world facs i
      ∧ persistCount (poll_go apiKey world times lastId facs i c db).2.2
        = countTruthyFetches apiKey world facs i
      ∧ fetchOrder (poll_go apiKey world times lastId facs i c db).2.2 = facs
      ∧ pacedView (poll_go apiKey world times lastId facs i c db).2.2
        = pacedInterleave lastId facs
      ∧ ∃ tail, (poll_go apiKey world times lastId facs i c db).2.1 = db ++ tail := by
  intro facs
  induction facs with
  | nil =>
    intro i c db
    simp [poll_go, countTruthyFetches, persistCount, fetchOrder, pacedView, pacedInterleave]
  | cons fid rest ih =>
    intro i c db
    cases hd : (fetch_parking_data apiKey fid (world i) 0).data with
    | none =>
      have ht : fetchTruthy apiKey world i fid = false := by
        simp [fetchTruthy, truthyData, hd]
      obtain ⟨ih1, ih2, ih3, ih4, ⟨tail, ih5⟩⟩ := ih (i + 1) c db
      simp only [persistCount, fetchOrder, pacedView] at ih2 ih3 ih4
      by_cases hl : some fid ≠ lastId <;>
        refine ⟨?_, ?_, ?_, ?_, ⟨tail, ?_⟩⟩ <;>
          simp [poll_go, hd, hl, countTruthyFetches, ht, ih1, ih2, ih3, ih4, ih5,
            persistCount_append, fetchOrder_append, pacedView_append, pacedInterleave,
            persistCount, fetchOrder, pacedView, Event.isPersist, Event.fetchId,
            Event.isFetchOrPace]
    | some p =>
      by_cases hp : p.nonempty
      · have ht : fetchTruthy apiKey world i fid = true := by
          simp [fetchTruthy, truthyData, hd, hp]
        obtain ⟨ih1, ih2, ih3, ih4, ⟨tail, ih5⟩⟩ := ih (i + 1) (c + 1) (save_parking_data db p (times i))
        simp only [persistCount, fetchOrder, pacedView] at ih2 ih3 ih4
        obtain ⟨tail0, hsave⟩ := save_extends db p (times i)
        rw [hsave] at ih1 ih2 ih3 ih4 ih5
        by_cases hl : some fid ≠ lastId <;>
          refine ⟨?_, ?_, ?_, ?_, ⟨tail0 ++ tail, ?_⟩⟩ <;>
            simp [poll_go, hd, hp, hl, countTruthyFetches, ht, ih1, ih2, ih3, ih4, ih5,
              persistCount_append, fetchOrder_append, pacedView_append, pacedInterleave,
              persistCount, fetchOrder, pacedView, Event.isPersist, Event.fetchId,
              Event.isFetchOrPace, hsave] <;> omega
      · have ht : fetchTruthy apiKey world i fid = false := by
          simp [fetchTruthy, truthyData, hd, hp]
        obtain ⟨ih1, ih2, ih3, ih4, ⟨tail, ih5⟩⟩ := ih (i + 1) c db
        simp only [persistCount, fetchOrder, pacedView] at ih2 ih3 ih4
        by_cases hl : some fid ≠ lastId <;>
          refine ⟨?_, ?_, ?_, ?_, ⟨tail, ?_⟩⟩ <;>
            simp [poll_go, hd, hp, hl, countTruthyFetches, ht, ih1, ih2, ih3, ih4, ih5,
              persistCount_append, fetchOrder_append, pacedView_append, pacedInterleave,
              persistCount, fetchOrder, pacedView, Event.isPersist, Event.fetchId,
              Event.isFetchOrPace]

theorem poll_go_idempotent (apiKey : Bool) (world : Nat → Nat → Outcome)
    (times times' : Nat → String) (lastId : Option Int) :
    ∀ (facs : List Int) (i c c' : Nat) (db : List Row),
      (poll_go apiKey world times' lastId facs i c'
        (poll_go apiKey world times lastId facs i c db).2.1).2.1
      = (poll_go apiKey world times lastId facs i c db).2.1 := by
  intro facs
  induction facs with
  | nil => intro i c c' db; simp [poll_go]
  | cons fid rest ih =>
    intro i c c' db
    cases hd : (fetch_parking_data apiKey fid (world i) 0).data with
    | none =>
      simp only [poll_go, hd]
      exact ih (i + 1) c c' db
    | some p =>
      by_cases hp : p.nonempty
      · have hsat : Saturated (save_parking_data db p (times i)) p :=
          saturated_after_save db p (times i)
        obtain ⟨tail, htail⟩ := (poll_go_spec apiKey world times lastId rest (i + 1) (c + 1)
          (save_parking_data db p (times i))).2.2.2.2
        have hsat2 : Saturated
            (poll_go apiKey world times lastId rest (i + 1) (c + 1)
              (save_parking_data db p (times i))).2.1 p := by
          rw [htail]; exact saturated_mono tail hsat
        have hnoop := save_of_saturated (times' i) hsat2
        simp only [poll_go, hd, hp, if_true]
        rw [hnoop]
        exact ih (i + 1) (c + 1) (c' + 1) (save_parking_data db p (times i))
      · have hp' : p.nonempty = false := by simpa using hp
        simp only [poll_go, hd, hp', Bool.false_eq_true, if_false]
        exact ih (i + 1) c c' db

theorem paceCount_pacedView (evs : List Event) : paceCount (pacedView evs) = paceCount evs := by
  have h : ∀ e : Event, (Event.isPace e && Event.isFetchOrPace e) = Event.isPace e := by
    intro e; cases e <;> rfl
  simp [paceCount, pacedView, List.filter_filter, h]

theorem pacedInterleave_eq_spec (l : Int) :
    ∀ init : List Int, l ∉ init →
      pacedInterleave (some l) (init ++ [l]) = specPacedOrder (init ++ [l]) := by
  intro init
  induction init with
  | nil => intro h; simp [pacedInterleave, specPacedOrder]
  | cons f init' ih =>
    intro h
    have hf : f ≠ l := fun hc => h (hc ▸ List.mem_cons_self f init')
    have h' : l ∉ init' := fun hc => h (List.mem_cons_of_mem _ hc)
    have hrec := ih h'
    have hcond : some f ≠ (some l : Option Int) := by simpa using hf
    cases init' with
    | nil => simp [pacedInterleave, specPacedOrder, hf]
    | cons g init'' =>
      simp only [List.cons_append] at hrec ⊢
      show (if some f ≠ (some l : Option Int)
          then [Event.fetchCall f, Event.paceSleep RATE_LIMIT_DELAY]
          else [Event.fetchCall f]) ++ pacedInterleave (some l) (g :: (init'' ++ [l]))
        = Event.fetchCall f :: Event.paceSleep RATE_LIMIT_DELAY
            :: specPacedOrder (g :: (init'' ++ [l]))
      rw [if_pos hcond, hrec]
      rfl

theorem paceCount_pacedInterleave (l : Int) :
    ∀ init : List Int, l ∉ init →
      paceCount (pacedInterleave (some l) (init ++ [l])) = init.length := by
  intro init
  induction init with
  | nil => intro h; simp [pacedInterleave, paceCount, Event.isPace]
  | cons f init' ih =>
    intro h
    have hf : f ≠ l := fun hc => h (hc ▸ List.mem_cons_self f init')
    have h' : l ∉ init' := fun hc => h (List.mem_cons_of_mem _ hc)
    have hrec := ih h'
    have hcond : some f ≠ (some l : Option Int) := by simpa using hf
    simp only [List.cons_append, pacedInterleave, if_pos hcond]
    simp only [paceCount, List.filter_append] at hrec ⊢
    simp [Event.isPace, hrec]

/-- Counterexample to **C4** as stated: a NOT NULL violation. -/
theorem C4_notnull_not_propagated_counterexample :
    dbInsert [] (rowOf noFidPayload ("t0")) = .error .notNullViolation
    ∧ save_parking_data [] noFidPayload ("t0") = [] := by
  constructor <;> rfl

/-- **C4 amended**: every integrity error is absorbed. -/
theorem C4_integrity_errors_absorbed :
    ∀ (db : List Row) (data : Payload) (t : String),
      (∀ e : SqliteError, dbInsert db (rowOf data t) = .error e →
        save_parking_data db data t = db)
      ∧ (∀ db' : List Row, dbInsert db (rowOf data t) = .ok db' →
        save_parking_data db data t = db') := by
  intro db data t
  constructor
  · intro e h
    unfold save_parking_data
    rw [h]
  · intro db' h
    unfold save_parking_data
    rw [h]

/-- Witness for **C4 amended**. -/
theorem C4_integrity_errors_absorbed_witness :
    save_parking_data [rowOf samplePayload ("t1")] samplePayload ("t2")
      = [rowOf samplePayload ("t1")]
    ∧ save_parking_data [] noFidPayload ("t3") = [] :=
  ⟨(C4_integrity_errors_absorbed [rowOf samplePayload ("t1")] samplePayload ("t2")).1
      .uniqueViolation (by rfl),
   (C4_integrity_errors_absorbed [] noFidPayload ("t3")).1
      .notNullViolation (by rfl)⟩

/-- **C5**: uniqueness invariant and cycle idempotence. -/
theorem C5_pair_unique_and_cycle_idempotent :
    (∀ (db : List Row) (data : Payload) (t1 t2 : String),
      data.facility_id ≠ none →
      pairCount db data.facility_id (data.messageDate.getD ("")) = 0 →
      pairCount (save_parking_data (save_parking_data db data t1) data t2)
          data.facility_id (data.messageDate.getD ("")) = 1
      ∧ save_parking_data (save_parking_data db data t1) data t2
          = save_parking_data db data t1
      ∧ dbInsert (save_parking_data db data t1) (rowOf data t2)
          = .error .uniqueViolation)
    ∧ (∀ (apiKey : Bool) (world : Nat → Nat → Outcome) (times times' : Nat → String)
        (facilities : List Int) (db : List Row),
      (poll_all_facilities apiKey world times' facilities
          (poll_all_facilities apiKey world times facilities db).2.1).2.1
        = (poll_all_facilities apiKey world times facilities db).2.1) := by
  constructor
  · exact save_twice_unique_pair
  · intro apiKey world times times' facilities db
    simpa [poll_all_facilities] using
      poll_go_idempotent apiKey world times times' facilities.getLast? facilities 0 0 0 db

/-- Witness for **C5**. -/
theorem C5_pair_unique_and_cycle_idempotent_witness :
    pairCount (save_parking_data (save_parking_data [] samplePayload ("t1")) samplePayload ("t2"))
        samplePayload.facility_id (samplePayload.messageDate.getD ("")) = 1
    ∧ save_parking_data (save_parking_data [] samplePayload ("t1")) samplePayload ("t2")
        = save_parking_data [] samplePayload ("t1")
    ∧ dbInsert (save_parking_data [] samplePayload ("t1")) (rowOf samplePayload ("t2"))
        = .error .uniqueViolation :=
  C5_pair_unique_and_cycle_idempotent.1 [] samplePayload ("t1") ("t2") (by decide) (by decide)

/-- Counterexample to **C6** as stated: empty-dict payload. -/
theorem C6_empty_payload_counterexample :
    (fetch_parking_data true 29 (fun _ => .response 200 (.payload emptyDictPayload)) 0).data
      = some emptyDictPayload
    ∧ poll_all_facilities true (fun _ _ => .response 200 (.payload emptyDictPayload))
        (fun _ => ("t")) [29] []
      = (false, [], [Event.fetchCall 29]) := by
  constructor
  · simp [fetch_parking_data, fetch_go]
  · simp [poll_all_facilities, poll_go, fetch_parking_data, fetch_go,
      emptyDictPayload, Payload.nonempty]

/-- **C6 amended**: success flag and persist invocations count truthy fetches. -/
theorem C6_cycle_success_iff_truthy_fetch :
    ∀ (apiKey : Bool) (world : Nat → Nat → Outcome) (times : Nat → String)
      (facilities : List Int) (db : List Row),
      ((poll_all_facilities apiKey world times facilities db).1 = true
        ↔ 0 < countTruthyFetches apiKey world facilities 0)
      ∧ persistCount (poll_all_facilities apiKey world times facilities db).2.2
        = countTruthyFetches apiKey world facilities 0
      ∧ ((∀ (i : Nat) (fid : Int), fetchTruthy apiKey world i fid = true) →
          facilities ≠ [] →
          persistCount (poll_all_facilities apiKey world times facilities db).2.2
            = facilities.length
          ∧ (poll_all_facilities apiKey world times facilities db).1 = true) := by
  intro apiKey world times facilities db
  obtain ⟨h1, h2, h3, h4, h5⟩ := poll_go_spec apiKey world times facilities.getLast? facilities 0 0 db
  have hlen : ∀ (hall : ∀ (i : Nat) (fid : Int), fetchTruthy apiKey world i fid = true)
      (facs : List Int) (i : Nat), countTruthyFetches apiKey world facs i = facs.length := by
    intro hall facs
    induction facs with
    | nil => intro i; rfl
    | cons f r ihh => intro i; simp [countTruthyFetches, hall, ihh, Nat.add_comm]
  refine ⟨?_, ?_, ?_⟩
  · simp [poll_all_facilities, h1]
  · simpa [poll_all_facilities] using h2
  · intro hall hne
    have hpos : 0 < facilities.length := List.length_pos.mpr hne
    constructor
    · simp only [poll_all_facilities]
      rw [h2, hlen hall]
    · simp only [poll_all_facilities]
      rw [h1, hlen hall]
      simpa using hpos

/-- Witness for **C6 amended**. -/
theorem C6_cycle_success_iff_truthy_fetch_witness :
    persistCount (poll_all_facilities true
        (fun _ _ => .response 200 (.payload samplePayload)) (fun _ => ("t")) [29, 30] []).2.2
      = 2
    ∧ (poll_all_facilities true
        (fun _ _ => .response 200 (.payload samplePayload)) (fun _ => ("t")) [29, 30] []).1
      = true :=
  (C6_cycle_success_iff_truthy_fetch true
      (fun _ _ => .response 200 (.payload samplePayload)) (fun _ => ("t")) [29, 30] []).2.2
    (by
      intro i fid
      simp [fetchTruthy, truthyData, fetch_parking_data, fetch_go, samplePayload,
        Payload.nonempty])
    (by simp)

/-- Counterexample to **C7** as stated: duplicated last facility id. -/
theorem C7_duplicate_last_counterexample :
    poll_all_facilities true (fun _ _ => .requestException) (fun _ => ("t")) [29, 29] []
      = (false, [], [Event.fetchCall 29, Event.fetchCall 29])
    ∧ paceCount [Event.fetchCall 29, Event.fetchCall 29] = 0
    ∧ ([29, 29] : List Int).length - 1 = 1 := by
  refine ⟨?_, by decide, by decide⟩
  simp [poll_all_facilities, poll_go, fetch_parking_data, fetch_go]

/-- **C7 amended**: sequential order always; pacing after each non-final
facility whenever the last facility id is not duplicated earlier. -/
theorem C7_sequential_and_paced_between_requests :
    (∀ (apiKey : Bool) (world : Nat → Nat → Outcome) (times : Nat → String)
        (facilities : List Int) (db : List Row),
      fetchOrder (poll_all_facilities apiKey world times facilities db).2.2 = facilities)
    ∧ (∀ (apiKey : Bool) (world : Nat → Nat → Outcome) (times : Nat → String)
        (init : List Int) (l : Int) (db : List Row), l ∉ init →
      pacedView (poll_all_facilities apiKey world times (init ++ [l]) db).2.2
        = specPacedOrder (init ++ [l])
      ∧ paceCount (poll_all_facilities apiKey world times (init ++ [l]) db).2.2
        = (init ++ [l]).length - 1) := by
  constructor
  · intro apiKey world times facilities db
    simpa [poll_all_facilities] using
      (poll_go_spec apiKey world times facilities.getLast? facilities 0 0 db).2.2.1
  · intro apiKey world times init l db hl
    have hlast : (init ++ [l]).getLast? = some l := List.getLast?_concat init
    obtain ⟨h1, h2, h3, h4, h5⟩ :=
      poll_go_spec apiKey world times (init ++ [l]).getLast? (init ++ [l]) 0 0 db
    rw [hlast] at h4
    constructor
    · simp only [poll_all_facilities]
      rw [hlast, h4, pacedInterleave_eq_spec l init hl]
    · simp only [poll_all_facilities]
      rw [← paceCount_pacedView, hlast, h4, paceCount_pacedInterleave l init hl]
      simp

/-- Witness for **C7 amended** at the configured facility list. -/
theorem C7_sequential_and_paced_between_requests_witness :
    pacedView (poll_all_facilities true (fun _ _ => .requestException) (fun _ => ("t"))
        ([29, 30, 31] ++ [32]) []).2.2
      = specPacedOrder ([29, 30, 31] ++ [32])
    ∧ paceCount (poll_all_facilities true (fun _ _ => .requestException) (fun _ => ("t"))
        ([29, 30, 31] ++ [32]) []).2.2
      = ([29, 30, 31] ++ [32] : List Int).length - 1 :=
  C7_sequential_and_paced_between_requests.2 true (fun _ _ => .requestException)
    (fun _ => ("t")) [29, 30, 31] 32 [] (by decide)

/-- **C2**: counter reset/increment and threshold halt. -/
theorem C2_supervisor_halts_after_three_failures :
    (∀ n : Nat, applyOutcome n .success = .inr 0)
    ∧ (∀ n : Nat, n + 1 < MAX_CONSECUTIVE_FAILURES →
        applyOutcome n .failure = .inr (n + 1) ∧ applyOutcome n .exn = .inr (n + 1))
    ∧ (∀ n : Nat, MAX_CONSECUTIVE_FAILURES ≤ n + 1 →
        applyOutcome n .failure = .inl .halted ∧ applyOutcome n .exn = .inl .halted)
    ∧ (∀ rest : List IterInput,
        runSup 0 (.completes .failure :: .completes .failure :: .completes .failure :: rest)
          = (.inl .halted, 3))
    ∧ exitCode .halted ≠ 0 := by
  refine ⟨fun n => rfl, fun n h => ?_, fun n h => ?_, fun rest => ?_, by decide⟩
  · constructor <;> simp [applyOutcome, Nat.not_le.mpr h]
  · constructor <;> simp [applyOutcome, h]
  · simp [runSup, stepIter, applyOutcome, MAX_CONSECUTIVE_FAILURES]

/-- Witness for **C2**. -/
theorem C2_supervisor_halts_after_three_failures_witness :
    applyOutcome 0 .failure = .inr 1
    ∧ applyOutcome 2 .exn = .inl .halted
    ∧ runSup 0 [.completes .failure, .completes .failure, .completes .failure]
        = (.inl .halted, 3) :=
  ⟨(C2_supervisor_halts_after_three_failures.2.1 0 (by decide)).1,
   (C2_supervisor_halts_after_three_failures.2.2.1 2 (by decide)).2,
   C2_supervisor_halts_after_three_failures.2.2.2.1 []⟩

/-- Counterexample to **C9** as stated. -/
theorem C9_interrupt_after_exn_counterexample :
    runSup 1 [.interruptInSleep .exn] = (.inl .killedByInterrupt, 1)
    ∧ exitCode .killedByInterrupt ≠ 0 := by
  constructor <;> decide

/-- **C9 amended**: interrupt behaviour by location. -/
theorem C9_interrupt_stops_within_wait :
    (∀ (n : Nat) (rest : List IterInput),
      runSup n (.interruptInCycle :: rest) = (.inl .stopped, 1))
    ∧ (∀ (n : Nat) (rest : List IterInput),
      runSup n (.interruptInSleep .success :: rest) = (.inl .stopped, 1))
    ∧ (∀ (n : Nat) (rest : List IterInput), n + 1 < MAX_CONSECUTIVE_FAILURES →
      runSup n (.interruptInSleep .failure :: rest) = (.inl .stopped, 1))
    ∧ (∀ (n : Nat) (rest : List IterInput), n + 1 < MAX_CONSECUTIVE_FAILURES →
      runSup n (.interruptInSleep .exn :: rest) = (.inl .killedByInterrupt, 1))
    ∧ exitCode .stopped = 0 ∧ exitCode .halted = 1 ∧ exitCode .killedByInterrupt ≠ 0 := by
  refine ⟨fun n rest => rfl, fun n rest => rfl, fun n rest h => ?_, fun n rest h => ?_,
    rfl, rfl, by decide⟩
  · simp [runSup, stepIter, applyOutcome, Nat.not_le.mpr h]
  · simp [runSup, stepIter, applyOutcome, Nat.not_le.mpr h]

/-- Witness for **C9 amended**. -/
theorem C9_interrupt_stops_within_wait_witness :
    runSup 1 [.interruptInSleep .failure] = (.inl .stopped, 1)
    ∧ runSup 0 [.interruptInSleep .exn, .completes .success]
        = (.inl .killedByInterrupt, 1) :=
  ⟨C9_interrupt_stops_within_wait.2.2.1 1 [] (by decide),
   C9_interrupt_stops_within_wait.2.2.2.1 0 [.completes .success] (by decide)⟩

end MetroParking
